import Mathlib

/-!
Verification development for the MCQ exam web backend (`backend/app.py`).

The program is a single-file Flask application: a schema initializer
(`setup_database`) that runs once at process start and creates four tables
with `CREATE TABLE IF NOT EXISTS`, plus a routing table of one root route
and twelve stub endpoint handlers that all answer HTTP 501 with a JSON
`message` body.  This file gives a shallow embedding of that program:

* the SQL schema is embedded as concrete `Table`/`Column` values copied
  from the `CREATE TABLE` statements;
* the database is a list of tables; `CREATE TABLE IF NOT EXISTS` is
  `execCreateIfNotExists`; statement failure is driven by an explicit
  failure oracle, mirroring the `try/except/finally` of the source;
* the Flask routing decorators become `dispatch`, the handler bodies
  become `handle`, and a request/response cycle is `serveRequest`.
-/

namespace Mcqweb

/-- A column of a SQL table: its identifier and the rest of its SQL
declaration (type, constraints, default), transliterated verbatim from the
`CREATE TABLE` statements in `setup_database`. -/
structure Column where
  name : String
  decl : String
deriving DecidableEq, Repr

/-- A SQL table: name and ordered column list. -/
structure Table where
  name : String
  cols : List Column
deriving DecidableEq, Repr

/-- The database state: the list of tables that exist, in creation order. -/
abbrev DbState := List Table

/-- Whether a table with the given name exists in the database. -/
def tableExists (db : DbState) (n : String) : Bool :=
  db.any (fun t => t.name == n)

/-- Semantics of `CREATE TABLE IF NOT EXISTS`: if a table of that name
exists the statement does nothing, otherwise the table is appended. -/
def execCreateIfNotExists (db : DbState) (t : Table) : DbState :=
  if tableExists db t.name then db else db ++ [t]

/-- The `users` table of `setup_database`. -/
def usersTable : Table :=
  { name := "users"
    cols :=
      [ { name := "id", decl := "SERIAL PRIMARY KEY" }
      , { name := "name", decl := "VARCHAR(100) NOT NULL" }
      , { name := "phone", decl := "VARCHAR(11) UNIQUE NOT NULL" }
      , { name := "password_hash", decl := "VARCHAR(255) NOT NULL" }
      , { name := "school", decl := "VARCHAR(100)" }
      , { name := "points", decl := "INTEGER DEFAULT 0" }
      , { name := "level", decl := "INTEGER DEFAULT 1" }
      , { name := "created_at", decl := "TIMESTAMP DEFAULT CURRENT_TIMESTAMP" } ] }

/-- The `question_sets` table of `setup_database`. -/
def questionSetsTable : Table :=
  { name := "question_sets"
    cols :=
      [ { name := "id", decl := "SERIAL PRIMARY KEY" }
      , { name := "name", decl := "VARCHAR(255) NOT NULL" }
      , { name := "category", decl := "VARCHAR(50) NOT NULL" }
      , { name := "is_active", decl := "BOOLEAN DEFAULT FALSE" }
      , { name := "exam_time_minutes", decl := "INTEGER DEFAULT 30" }
      , { name := "created_at", decl := "TIMESTAMP DEFAULT CURRENT_TIMESTAMP" } ] }

/-- The `questions` table of `setup_database`. -/
def questionsTable : Table :=
  { name := "questions"
    cols :=
      [ { name := "id", decl := "SERIAL PRIMARY KEY" }
      , { name := "set_id", decl := "INTEGER REFERENCES question_sets(id) ON DELETE CASCADE" }
      , { name := "question_text", decl := "TEXT NOT NULL" }
      , { name := "options", decl := "JSONB NOT NULL" }
      , { name := "correct_option", decl := "VARCHAR(255) NOT NULL" } ] }

/-- The `results` table of `setup_database`. -/
def resultsTable : Table :=
  { name := "results"
    cols :=
      [ { name := "id", decl := "SERIAL PRIMARY KEY" }
      , { name := "user_id", decl := "INTEGER REFERENCES users(id) ON DELETE CASCADE" }
      , { name := "set_id", decl := "INTEGER REFERENCES question_sets(id) ON DELETE CASCADE" }
      , { name := "score", decl := "INTEGER NOT NULL" }
      , { name := "total_marks", decl := "INTEGER NOT NULL" }
      , { name := "submitted_at", decl := "TIMESTAMP DEFAULT CURRENT_TIMESTAMP" } ] }

/-- The `commands` tuple of `setup_database`: the four `CREATE TABLE IF NOT
EXISTS` statements, in source order. -/
def commands : List Table :=
  [usersTable, questionSetsTable, questionsTable, resultsTable]

/-- Executing one command on the cursor.  The failure oracle `fails` says
whether the `i`-th `cur.execute` raises a `DatabaseError` (any statement
may fail with a generic database error); on success the create-if-absent
semantics apply. -/
def execCommand (fails : Nat → Bool) (i : Nat) (db : DbState) (t : Table) :
    Except String DbState :=
  if fails i then Except.error "DatabaseError" else Except.ok (execCreateIfNotExists db t)

/-- The `for command in commands: cur.execute(command)` loop.  Commands run
in order; the first raising command stops the loop (the exception
propagates to the `except` clause), returning the state built so far and
the error.  If none fails, all commands run and no error is returned. -/
def runCommands (fails : Nat → Bool) : Nat → DbState → List Table → DbState × Option String
  | _, db, [] => (db, none)
  | i, db, t :: ts =>
    match execCommand fails i db t with
    | Except.error e => (db, some e)
    | Except.ok db2 => runCommands fails (i + 1) db2 ts

/-- `get_db_connection`: connects and returns the connection, or logs
`Database connection error` and returns `None` when the database is
unreachable.  Connectivity is an explicit boolean parameter. -/
def get_db_connection (connected : Bool) : Option Unit × List String :=
  if connected then (some (), []) else (none, ["Database connection error"])

/-- Outcome of `setup_database`: the lines printed, the resulting database
state, and whether `conn.commit()`, `cur.close()` and `conn.close()` were
reached.  `setup_database` is a total function: every exception raised
inside the loop is caught by the `except` clause, so no call raises. -/
structure SetupResult where
  log : List String
  db : DbState
  committed : Bool
  cursorClosed : Bool
  connectionClosed : Bool
deriving DecidableEq, Repr

/-- `setup_database`: obtain a connection; on failure log
`Could not connect to the database. Aborting setup.` and return with the
database untouched.  Otherwise run the four create commands; a statement
failure is caught and logged (`Error during table creation: ...`), never
re-raised; the `finally` block then closes the cursor, commits whatever
the executed statements produced, and closes the connection. -/
def setup_database (connected : Bool) (fails : Nat → Bool) (db : DbState) : SetupResult :=
  match get_db_connection connected with
  | (none, connLog) =>
    { log := connLog ++ ["Could not connect to the database. Aborting setup."]
      db := db
      committed := false
      cursorClosed := false
      connectionClosed := false }
  | (some _, connLog) =>
    let (db2, err) := runCommands fails 0 db commands
    let bodyLog :=
      match err with
      | none => ["Tables created or already exist."]
      | some e => ["Error during table creation: " ++ e]
    { log := connLog ++ bodyLog
      db := db2
      committed := true
      cursorClosed := true
      connectionClosed := true }

/-- The failure oracle that never fails any statement. -/
def noFail : Nat → Bool := fun _ => false

/-- The failure oracle under which exactly the `k`-th statement raises. -/
def failOnly (k : Nat) : Nat → Bool := fun i => i == k

/-- Environment lookup: `os.environ.get(key, default)`. -/
def os_environ_get (env : String → Option String) (key dflt : String) : String :=
  (env key).getD dflt

/-- `app.config['SECRET_KEY'] = os.environ.get('SECRET_KEY', 'your-default-secret-key')`. -/
def SECRET_KEY (env : String → Option String) : String :=
  os_environ_get env "SECRET_KEY" "your-default-secret-key"

/-- `DATABASE_URL = os.environ.get('DATABASE_URL')` (no default value). -/
def DATABASE_URL (env : String → Option String) : Option String :=
  env "DATABASE_URL"

/-- HTTP methods declared by the routing decorators of the app. -/
inductive Method
  | GET
  | POST
  | PUT
  | DELETE
deriving DecidableEq, Repr

/-- The handler functions of the app, one per `@app.route` decorator; the
`<int:set_id>` URL parameter of `manage_single_question_set` is carried by
its constructor. -/
inductive Handler
  | index
  | signup
  | login
  | getLiveExam
  | submitExam
  | manageQuestionSets
  | manageSingleQuestionSet (set_id : Nat)
  | addQuestion
  | getAllResults
  | getLeaderboard
  | getMyResults
deriving DecidableEq, Repr

/-- Flask's `<int:...>` URL converter: a non-empty all-digit path segment
parses to the natural number it denotes; anything else does not match. -/
def parseIntSegment (s : String) : Option Nat :=
  if s.length > 0 && s.data.all Char.isDigit then
    some (s.data.foldl (fun acc c => acc * 10 + (c.toNat - 48)) 0)
  else none

/-- The routing table built by the `@app.route` decorators: an HTTP method
and a path (as its list of segments, so `/api/signup` is
`["api", "signup"]` and `/` is `[]`) dispatch to a handler, or to nothing
when no route matches. -/
def dispatch : Method → List String → Option Handler
  | Method.GET, [] => some Handler.index
  | Method.POST, ["api", "signup"] => some Handler.signup
  | Method.POST, ["api", "login"] => some Handler.login
  | Method.GET, ["api", "exams", "live"] => some Handler.getLiveExam
  | Method.POST, ["api", "exams", "submit"] => some Handler.submitExam
  | Method.POST, ["api", "admin", "question-sets"] => some Handler.manageQuestionSets
  | Method.GET, ["api", "admin", "question-sets"] => some Handler.manageQuestionSets
  | Method.DELETE, ["api", "admin", "question-sets", s] =>
    (parseIntSegment s).map Handler.manageSingleQuestionSet
  | Method.PUT, ["api", "admin", "question-sets", s] =>
    (parseIntSegment s).map Handler.manageSingleQuestionSet
  | Method.POST, ["api", "admin", "questions"] => some Handler.addQuestion
  | Method.GET, ["api", "admin", "results"] => some Handler.getAllResults
  | Method.GET, ["api", "leaderboard"] => some Handler.getLeaderboard
  | Method.GET, ["api", "my-results"] => some Handler.getMyResults
  | _, _ => none

/-- The content of an HTTP request beyond its method and path: body,
headers, and query parameters.  No handler in the app reads any of these. -/
structure Request where
  body : String
  headers : List (String × String)
  query : List (String × String)
deriving DecidableEq, Repr

/-- An HTTP response: status code and JSON object body as key-value pairs
(every response body in the app is a flat JSON object of strings). -/
structure Response where
  status : Nat
  body : List (String × String)
deriving DecidableEq, Repr

/-- Whether a JSON object body contains the given key. -/
def hasKey (body : List (String × String)) (k : String) : Bool :=
  body.any (fun p => p.1 == k)

/-- The handler bodies, transliterated from the source.  `index` returns
the welcome message with Flask's default status 200; every other handler
returns its placeholder message with status 501.  `manage_question_sets`
and `manage_single_question_set` branch on `request.method`; on a method
outside their `if` arms they fall off the end and return `None`
(unreachable through `dispatch`).  No handler inspects the `Request`. -/
def handle : Handler → Method → Request → Option Response
  | Handler.index, _, _ =>
    some ⟨200, [("message", "Welcome to the Python MCQ Exam API!")]⟩
  | Handler.signup, _, _ =>
    some ⟨501, [("message", "Signup endpoint not implemented yet.")]⟩
  | Handler.login, _, _ =>
    some ⟨501, [("message", "Login endpoint not implemented yet.")]⟩
  | Handler.getLiveExam, _, _ =>
    some ⟨501, [("message", "Get live exam endpoint not implemented yet.")]⟩
  | Handler.submitExam, _, _ =>
    some ⟨501, [("message", "Submit exam endpoint not implemented yet.")]⟩
  | Handler.manageQuestionSets, Method.POST, _ =>
    some ⟨501, [("message", "Create question set not implemented.")]⟩
  | Handler.manageQuestionSets, Method.GET, _ =>
    some ⟨501, [("message", "Get all question sets not implemented.")]⟩
  | Handler.manageQuestionSets, _, _ => none
  | Handler.manageSingleQuestionSet n, Method.DELETE, _ =>
    some ⟨501, [("message", "Delete set " ++ toString n ++ " not implemented.")]⟩
  | Handler.manageSingleQuestionSet n, Method.PUT, _ =>
    some ⟨501, [("message", "Update set " ++ toString n ++ " not implemented.")]⟩
  | Handler.manageSingleQuestionSet _, _, _ => none
  | Handler.addQuestion, _, _ =>
    some ⟨501, [("message", "Add question endpoint not implemented.")]⟩
  | Handler.getAllResults, _, _ =>
    some ⟨501, [("message", "Get all results endpoint not implemented.")]⟩
  | Handler.getLeaderboard, _, _ =>
    some ⟨501, [("message", "Leaderboard endpoint not implemented.")]⟩
  | Handler.getMyResults, _, _ =>
    some ⟨501, [("message", "My results endpoint not implemented.")]⟩

/-- The database statements a handler could issue.  The only statement
form appearing anywhere in the program is `CREATE TABLE IF NOT EXISTS`
(in `setup_database`); the handler bodies contain none at all. -/
inductive Stmt
  | createTableIfNotExists (t : Table)
deriving DecidableEq, Repr

/-- Effect of one statement on the database. -/
def execStmt (db : DbState) : Stmt → DbState
  | Stmt.createTableIfNotExists t => execCreateIfNotExists db t

/-- Effect of a statement list on the database. -/
def execStmts (db : DbState) (l : List Stmt) : DbState :=
  l.foldl execStmt db

/-- The database statements each handler body issues, read off the
source: every handler body is a bare `return jsonify(...)` (behind
TODO comments), so each issues no statement. -/
def handlerStmts : Handler → Method → List Stmt
  | Handler.index, _ => []
  | Handler.signup, _ => []
  | Handler.login, _ => []
  | Handler.getLiveExam, _ => []
  | Handler.submitExam, _ => []
  | Handler.manageQuestionSets, _ => []
  | Handler.manageSingleQuestionSet _, _ => []
  | Handler.addQuestion, _ => []
  | Handler.getAllResults, _ => []
  | Handler.getLeaderboard, _ => []
  | Handler.getMyResults, _ => []

/-- Running one handler: its statements act on the database and its body
produces the response. -/
def runHandler (h : Handler) (m : Method) (r : Request) (db : DbState) :
    Option Response × DbState :=
  (handle h m r, execStmts db (handlerStmts h m))

/-- One full request cycle: route the method and path, then run the
matched handler; an unrouted request leaves the app (and database)
untouched. -/
def serveRequest (m : Method) (p : List String) (r : Request) (db : DbState) :
    Option Response × DbState :=
  match dispatch m p with
  | none => (none, db)
  | some h => runHandler h m r db

/-- A process run: `setup_database()` executes once at import time, then
the server handles a sequence of requests. -/
def runProcess (connected : Bool) (fails : Nat → Bool) (db : DbState)
    (reqs : List (Method × List String × Request)) : DbState :=
  reqs.foldl (fun d q => (serveRequest q.1 q.2.1 q.2.2 d).2)
    (setup_database connected fails db).db

/-- The data model documented by the spec (section 3): each entity's table
with its attribute list, written with the column identifiers the spec's
prose names (its `password hash` is the `password_hash` column, its `exam
duration minutes` the `exam_time_minutes` column).  This definition
follows the spec's words, for comparison with the tables the source's
`setup_database` creates. -/
def documentedTables : List (String × List String) :=
  [ ("users",
      ["id", "name", "phone", "password_hash", "school", "points", "level", "created_at"])
  , ("question_sets",
      ["id", "name", "category", "is_active", "exam_time_minutes", "created_at"])
  , ("questions",
      ["id", "set_id", "question_text", "options", "correct_option"])
  , ("results",
      ["id", "user_id", "set_id", "score", "total_marks", "submitted_at"]) ]

/-- A table's name together with its column names. -/
def describeTable (t : Table) : String × List String :=
  (t.name, t.cols.map Column.name)

/-! ### Helper lemmas -/

theorem runCommands_noFail (i : Nat) (db : DbState) (cs : List Table) :
    runCommands noFail i db cs = (cs.foldl execCreateIfNotExists db, none) := by
  induction cs generalizing i db with
  | nil => rfl
  | cons t ts ih => simp [runCommands, execCommand, noFail, List.foldl, ih]

theorem setup_db_noFail (db : DbState) :
    (setup_database true noFail db).db = commands.foldl execCreateIfNotExists db := by
  simp [setup_database, get_db_connection, runCommands_noFail]

theorem tableExists_append_singleton (db : DbState) (t : Table) (n : String) :
    tableExists (db ++ [t]) n = (tableExists db n || (t.name == n)) := by
  simp [tableExists, List.any_append]

theorem tableExists_execCreate_self (db : DbState) (t : Table) :
    tableExists (execCreateIfNotExists db t) t.name = true := by
  unfold execCreateIfNotExists
  split
  next h => exact h
  next h => simp [tableExists_append_singleton]

theorem tableExists_execCreate_mono (db : DbState) (t : Table) (n : String)
    (h : tableExists db n = true) :
    tableExists (execCreateIfNotExists db t) n = true := by
  unfold execCreateIfNotExists
  split
  next => exact h
  next => simp [tableExists_append_singleton, h]

theorem foldl_create_fixed (db : DbState)
    (hu : tableExists db "users" = true)
    (hq : tableExists db "question_sets" = true)
    (hn : tableExists db "questions" = true)
    (hr : tableExists db "results" = true) :
    commands.foldl execCreateIfNotExists db = db := by
  simp only [commands, List.foldl]
  rw [show execCreateIfNotExists db usersTable = db from by
        simp [execCreateIfNotExists, usersTable, hu],
      show execCreateIfNotExists db questionSetsTable = db from by
        simp [execCreateIfNotExists, questionSetsTable, hq],
      show execCreateIfNotExists db questionsTable = db from by
        simp [execCreateIfNotExists, questionsTable, hn],
      show execCreateIfNotExists db resultsTable = db from by
        simp [execCreateIfNotExists, resultsTable, hr]]

theorem foldl_create_fresh (db : DbState)
    (hu : tableExists db "users" = false)
    (hq : tableExists db "question_sets" = false)
    (hn : tableExists db "questions" = false)
    (hr : tableExists db "results" = false) :
    commands.foldl execCreateIfNotExists db = db ++ commands := by
  have s1 : execCreateIfNotExists db usersTable = db ++ [usersTable] := by
    simp [execCreateIfNotExists, usersTable, hu]
  have e2 : tableExists (db ++ [usersTable]) "question_sets" = false := by
    rw [tableExists_append_singleton, hq]; decide
  have s2 : execCreateIfNotExists (db ++ [usersTable]) questionSetsTable =
      db ++ [usersTable] ++ [questionSetsTable] := by
    simp only [execCreateIfNotExists, questionSetsTable]
    rw [e2]; simp
  have e3 : tableExists (db ++ [usersTable] ++ [questionSetsTable]) "questions" = false := by
    rw [tableExists_append_singleton, tableExists_append_singleton, hn]; decide
  have s3 : execCreateIfNotExists (db ++ [usersTable] ++ [questionSetsTable]) questionsTable =
      db ++ [usersTable] ++ [questionSetsTable] ++ [questionsTable] := by
    simp only [execCreateIfNotExists, questionsTable]
    rw [e3]; simp
  have e4 : tableExists (db ++ [usersTable] ++ [questionSetsTable] ++ [questionsTable])
      "results" = false := by
    rw [tableExists_append_singleton, tableExists_append_singleton,
        tableExists_append_singleton, hr]; decide
  have s4 : execCreateIfNotExists
      (db ++ [usersTable] ++ [questionSetsTable] ++ [questionsTable]) resultsTable =
      db ++ [usersTable] ++ [questionSetsTable] ++ [questionsTable] ++ [resultsTable] := by
    simp only [execCreateIfNotExists, resultsTable]
    rw [e4]; simp
  simp only [commands, List.foldl]
  rw [s1, s2, s3, s4]
  simp [commands, List.append_assoc]

theorem serveRequest_db_unchanged (m : Method) (p : List String) (r : Request)
    (db : DbState) : (serveRequest m p r db).2 = db := by
  have hs : ∀ (h : Handler) (m : Method), handlerStmts h m = [] := by
    intro h m; cases h <;> rfl
  unfold serveRequest
  split
  · rfl
  · simp [runHandler, hs, execStmts]

theorem foldl_serve_fixed (l : List (Method × List String × Request)) (d : DbState) :
    l.foldl (fun d q => (serveRequest q.1 q.2.1 q.2.2 d).2) d = d := by
  induction l generalizing d with
  | nil => rfl
  | cons q l ih => simp [List.foldl, serveRequest_db_unchanged, ih]

/-- The routed method-and-path combinations: the root route plus the
twelve declared endpoint routes of the app (the question-set item route
carries an integer segment). -/
def RoutedCase (m : Method) (p : List String) : Prop :=
  (m = Method.GET ∧ p = []) ∨
  (m = Method.POST ∧ p = ["api", "signup"]) ∨
  (m = Method.POST ∧ p = ["api", "login"]) ∨
  (m = Method.GET ∧ p = ["api", "exams", "live"]) ∨
  (m = Method.POST ∧ p = ["api", "exams", "submit"]) ∨
  (m = Method.POST ∧ p = ["api", "admin", "question-sets"]) ∨
  (m = Method.GET ∧ p = ["api", "admin", "question-sets"]) ∨
  ((m = Method.DELETE ∨ m = Method.PUT) ∧
    ∃ s n, p = ["api", "admin", "question-sets", s] ∧ parseIntSegment s = some n) ∨
  (m = Method.POST ∧ p = ["api", "admin", "questions"]) ∨
  (m = Method.GET ∧ p = ["api", "admin", "results"]) ∨
  (m = Method.GET ∧ p = ["api", "leaderboard"]) ∨
  (m = Method.GET ∧ p = ["api", "my-results"])

/-! ### Claims -/

/-- C1: every request routed to an endpoint other than `GET /` is answered
with HTTP status 501 and a JSON body containing a `message` key, whatever
the request payload. -/
theorem non_root_routes_return_501 (m : Method) (p : List String) (h : Handler)
    (r : Request) (hd : dispatch m p = some h) (hroot : h ≠ Handler.index) :
    ∃ resp : Response, handle h m r = some resp ∧ resp.status = 501 ∧
      hasKey resp.body "message" = true := by
  unfold dispatch at hd
  split at hd <;>
    first
      | exact Option.noConfusion hd
      | (obtain ⟨n, hn, hh⟩ := Option.map_eq_some'.mp hd
         subst hh
         exact ⟨_, rfl, rfl, rfl⟩)
      | (injection hd with hd
         subst hd
         first
           | exact absurd rfl hroot
           | exact ⟨_, rfl, rfl, rfl⟩)

/-- Witness for C1 at the signup route with an arbitrary concrete request. -/
theorem non_root_routes_return_501_witness :
    ∃ resp : Response,
      handle Handler.signup Method.POST ⟨"", [], []⟩ = some resp ∧
      resp.status = 501 ∧ hasKey resp.body "message" = true :=
  non_root_routes_return_501 Method.POST ["api", "signup"] Handler.signup
    ⟨"", [], []⟩ rfl (by decide)

/-- C2: on a reachable database holding none of the four tables,
`setup_database` appends exactly the four tables `users`, `question_sets`,
`questions`, `results`, whose names and column lists are the ones the
spec documents, and adds no other table. -/
theorem setup_database_creates_documented_tables (db : DbState)
    (hu : tableExists db "users" = false)
    (hq : tableExists db "question_sets" = false)
    (hn : tableExists db "questions" = false)
    (hr : tableExists db "results" = false) :
    (setup_database true noFail db).db = db ++ commands ∧
    commands.map describeTable = documentedTables := by
  refine ⟨?_, rfl⟩
  rw [setup_db_noFail]
  exact foldl_create_fresh db hu hq hn hr

/-- Witness for C2 on the empty database. -/
theorem setup_database_creates_documented_tables_witness :
    (setup_database true noFail []).db = commands ∧
    commands.map describeTable = documentedTables := by
  have h := setup_database_creates_documented_tables [] rfl rfl rfl rfl
  simpa using h

/-- C3: `setup_database` is idempotent: on a database where the four
tables already exist it changes nothing, so running startup twice equals
running it once. -/
theorem setup_database_idempotent :
    (∀ db : DbState,
      tableExists db "users" = true → tableExists db "question_sets" = true →
      tableExists db "questions" = true → tableExists db "results" = true →
      (setup_database true noFail db).db = db) ∧
    (∀ db : DbState,
      (setup_database true noFail (setup_database true noFail db).db).db =
        (setup_database true noFail db).db) := by
  have base : ∀ db : DbState,
      tableExists db "users" = true → tableExists db "question_sets" = true →
      tableExists db "questions" = true → tableExists db "results" = true →
      (setup_database true noFail db).db = db := by
    intro db hu hq hn hr
    rw [setup_db_noFail]
    exact foldl_create_fixed db hu hq hn hr
  refine ⟨base, ?_⟩
  intro db
  have hafter : ∀ t ∈ commands,
      tableExists ((setup_database true noFail db).db) t.name = true := by
    intro t ht
    rw [setup_db_noFail]
    fin_cases ht <;>
      simp only [commands, List.foldl] <;>
      first
        | exact tableExists_execCreate_mono _ _ _ (tableExists_execCreate_mono _ _ _
            (tableExists_execCreate_mono _ _ _ (tableExists_execCreate_self _ _)))
        | exact tableExists_execCreate_mono _ _ _ (tableExists_execCreate_mono _ _ _
            (tableExists_execCreate_self _ _))
        | exact tableExists_execCreate_mono _ _ _ (tableExists_execCreate_self _ _)
        | exact tableExists_execCreate_self _ _
  exact base _ (hafter usersTable (by simp [commands]))
    (hafter questionSetsTable (by simp [commands]))
    (hafter questionsTable (by simp [commands]))
    (hafter resultsTable (by simp [commands]))

/-- Witness for C3 on the database that holds exactly the four tables. -/
theorem setup_database_idempotent_witness :
    (setup_database true noFail commands).db = commands :=
  setup_database_idempotent.1 commands (by decide) (by decide) (by decide) (by decide)

/-- C4: when the connection cannot be established, `setup_database` logs
the connection error and the abort message and returns with the database
untouched, never reaching commit or close; being a total Lean function it
returns normally rather than raising, so the process keeps running. -/
theorem setup_database_connection_failure (fails : Nat → Bool) (db : DbState) :
    setup_database false fails db =
      { log := ["Database connection error",
                "Could not connect to the database. Aborting setup."]
        db := db
        committed := false
        cursorClosed := false
        connectionClosed := false } := rfl

/-- C5: when the `k`-th CREATE TABLE statement raises, `setup_database`
logs the error instead of re-raising it, keeps the tables created by the
statements before the failure, and the `finally` block still closes the
cursor, commits, and closes the connection. -/
theorem setup_database_statement_failure (db : DbState) (k : Nat)
    (hk : k < commands.length) :
    (setup_database true (failOnly k) db).log =
        ["Error during table creation: DatabaseError"] ∧
    (setup_database true (failOnly k) db).db =
        (commands.take k).foldl execCreateIfNotExists db ∧
    (setup_database true (failOnly k) db).committed = true ∧
    (setup_database true (failOnly k) db).cursorClosed = true ∧
    (setup_database true (failOnly k) db).connectionClosed = true := by
  have hk4 : k < 4 := by simpa [commands] using hk
  interval_cases k <;>
    simp [setup_database, get_db_connection, runCommands, execCommand, failOnly, commands,
      List.foldl]

/-- Witness for C5: the second statement fails on the empty database; the
`users` table created by the first statement is kept and committed. -/
theorem setup_database_statement_failure_witness :
    (setup_database true (failOnly 1) []).log =
        ["Error during table creation: DatabaseError"] ∧
    (setup_database true (failOnly 1) []).db = [usersTable] ∧
    (setup_database true (failOnly 1) []).committed = true ∧
    (setup_database true (failOnly 1) []).cursorClosed = true ∧
    (setup_database true (failOnly 1) []).connectionClosed = true := by
  have h := setup_database_statement_failure [] 1 (by decide)
  simpa [commands, execCreateIfNotExists, tableExists] using h

/-- C6 counterexample: in an environment that defines no variables, the
signing secret is not taken from the environment at all: the program
falls back to the hard-coded string `your-default-secret-key`, so the
secret is not always externally supplied. -/
theorem secret_key_default_counterexample :
    SECRET_KEY (fun _ => none) = "your-default-secret-key" ∧
    ¬ ∃ v, (fun _ => (none : Option String)) "SECRET_KEY" = some v ∧
        SECRET_KEY (fun _ => none) = v := by
  refine ⟨rfl, ?_⟩
  rintro ⟨v, hv, _⟩
  exact Option.noConfusion hv

/-- C6 amended: the database connection string is read only from the
environment (`DATABASE_URL`, no default); the token signing secret is
read from the environment when `SECRET_KEY` is set, but otherwise the
hard-coded default `your-default-secret-key` is used. -/
theorem config_from_environment (env : String → Option String) :
    DATABASE_URL env = env "DATABASE_URL" ∧
    (∀ v, env "SECRET_KEY" = some v → SECRET_KEY env = v) ∧
    (env "SECRET_KEY" = none → SECRET_KEY env = "your-default-secret-key") := by
  refine ⟨rfl, ?_, ?_⟩
  · intro v hv
    simp [SECRET_KEY, os_environ_get, hv]
  · intro hv
    simp [SECRET_KEY, os_environ_get, hv]

/-- Witness for the amended C6: an environment that sets `SECRET_KEY`
supplies the secret; one that does not yields the hard-coded default. -/
theorem config_from_environment_witness :
    SECRET_KEY (fun k => if k == "SECRET_KEY" then some "s3cret" else none) = "s3cret" ∧
    SECRET_KEY (fun _ => none) = "your-default-secret-key" :=
  ⟨(config_from_environment
      (fun k => if k == "SECRET_KEY" then some "s3cret" else none)).2.1 "s3cret" rfl,
   (config_from_environment (fun _ => none)).2.2 rfl⟩

/-- C7: the routing table consists of exactly the root route and the
twelve declared method-and-path routes: every dispatched combination is
one of them, and each declared combination dispatches to its handler. -/
theorem routing_surface :
    (∀ m p h, dispatch m p = some h → RoutedCase m p) ∧
    dispatch Method.GET [] = some Handler.index ∧
    dispatch Method.POST ["api", "signup"] = some Handler.signup ∧
    dispatch Method.POST ["api", "login"] = some Handler.login ∧
    dispatch Method.GET ["api", "exams", "live"] = some Handler.getLiveExam ∧
    dispatch Method.POST ["api", "exams", "submit"] = some Handler.submitExam ∧
    dispatch Method.POST ["api", "admin", "question-sets"] =
      some Handler.manageQuestionSets ∧
    dispatch Method.GET ["api", "admin", "question-sets"] =
      some Handler.manageQuestionSets ∧
    (∀ s n, parseIntSegment s = some n →
      dispatch Method.DELETE ["api", "admin", "question-sets", s] =
        some (Handler.manageSingleQuestionSet n)) ∧
    (∀ s n, parseIntSegment s = some n →
      dispatch Method.PUT ["api", "admin", "question-sets", s] =
        some (Handler.manageSingleQuestionSet n)) ∧
    dispatch Method.POST ["api", "admin", "questions"] = some Handler.addQuestion ∧
    dispatch Method.GET ["api", "admin", "results"] = some Handler.getAllResults ∧
    dispatch Method.GET ["api", "leaderboard"] = some Handler.getLeaderboard ∧
    dispatch Method.GET ["api", "my-results"] = some Handler.getMyResults := by
  refine ⟨?_, rfl, rfl, rfl, rfl, rfl, rfl, rfl, ?_, ?_, rfl, rfl, rfl, rfl⟩
  · intro m p h hd
    unfold dispatch at hd
    split at hd <;>
      first
        | exact Option.noConfusion hd
        | (obtain ⟨n, hn, hh⟩ := Option.map_eq_some'.mp hd
           refine Or.inr (Or.inr (Or.inr (Or.inr (Or.inr (Or.inr (Or.inr (Or.inl ?_)))))))
           first
             | exact ⟨Or.inl rfl, _, n, rfl, hn⟩
             | exact ⟨Or.inr rfl, _, n, rfl, hn⟩)
        | simp [RoutedCase]
  · intro s n hn
    simp [dispatch, hn]
  · intro s n hn
    simp [dispatch, hn]

/-- Witness for C7 at the signup route and at a concrete parameterized
route. -/
theorem routing_surface_witness :
    RoutedCase Method.POST ["api", "signup"] ∧
    dispatch Method.PUT ["api", "admin", "question-sets", "7"] =
      some (Handler.manageSingleQuestionSet 7) :=
  ⟨routing_surface.1 Method.POST ["api", "signup"] Handler.signup rfl,
   routing_surface.2.2.2.2.2.2.2.2.2.1 "7" 7 (by decide)⟩

/-- C8: `GET /` is routed to `index`, which answers HTTP 200 with the
welcome JSON body. -/
theorem root_route_welcome (r : Request) :
    dispatch Method.GET [] = some Handler.index ∧
    handle Handler.index Method.GET r =
      some ⟨200, [("message", "Welcome to the Python MCQ Exam API!")]⟩ :=
  ⟨rfl, rfl⟩

/-- C9: every handler is deterministic and ignores the request content:
for a fixed handler (hence a fixed `set_id` on the parameterized route)
and method, any two requests receive the same response. -/
theorem handlers_ignore_request_content (h : Handler) (m : Method)
    (r1 r2 : Request) : handle h m r1 = handle h m r2 := by
  cases h <;> cases m <;> rfl

/-- C10: no request handler reads or writes the database: serving any
request leaves the database state unchanged, so over a whole process run
the database is exactly what the single startup `setup_database` call
left behind. -/
theorem handlers_leave_database_unchanged :
    (∀ (m : Method) (p : List String) (r : Request) (db : DbState),
      (serveRequest m p r db).2 = db) ∧
    (∀ (connected : Bool) (fails : Nat → Bool) (db : DbState)
        (reqs : List (Method × List String × Request)),
      runProcess connected fails db reqs = (setup_database connected fails db).db) := by
  refine ⟨serveRequest_db_unchanged, ?_⟩
  intro connected fails db reqs
  unfold runProcess
  exact foldl_serve_fixed reqs _

end Mcqweb
